import Mathlib

/-!
# backend_master: playlist and video controllers

A shallow embedding of `src/controllers/playlist.controller.js`,
`src/controllers/video.Controller.js` and `src/models/playlistSchema.model.js`.

Request handlers are functions from the state they act on (and the request) to the
new state together with what the handler produced: either the `ApiResponse` it sent
or the value it threw.  The state survives a throw, because effects a handler issued
before it threw are not undone.

Documents carry the fields the handlers read and write.  The `createdAt`/`updatedAt`
stamps that the persistence library maintains from the wall clock are not modelled.

Ids are `ObjectId`s, written as the strings that render them, and a lookup compares
these strings.  The cast the persistence library applies to a query value before it
looks anything up is not modelled: results about a lookup are stated for ids that are the
`_id` of a stored document, for which the cast is the identity.
-/

namespace BackendMaster

/-! ## Host-language primitives -/

/-- The code points `String.prototype.trim` strips: WhiteSpace and LineTerminator. -/
def jsIsWhiteSpace (c : Char) : Bool :=
  let n := c.toNat
  n == 0x09 || n == 0x0A || n == 0x0B || n == 0x0C || n == 0x0D || n == 0x20 ||
  n == 0xA0 || n == 0x1680 || (0x2000 ≤ n && n ≤ 0x200A) || n == 0x2028 ||
  n == 0x2029 || n == 0x202F || n == 0x205F || n == 0x3000 || n == 0xFEFF

/-- `s.trim()`. -/
def jsTrim (s : String) : String :=
  String.mk ((s.data.dropWhile jsIsWhiteSpace).reverse.dropWhile jsIsWhiteSpace).reverse

/-- Lower-casing of one character.  Exact on ASCII and on the two non-ASCII letters
whose lower case contains an ASCII letter (KELVIN SIGN, and I WITH DOT ABOVE which becomes
`i` followed by COMBINING DOT ABOVE).  Every other cased letter lower-cases to a non-ASCII
letter and is left as it is, which changes no comparison with an ASCII keyword. -/
def jsLowerChar (c : Char) : List Char :=
  if c.toNat == 0x212A then ['k']
  else if c.toNat == 0x0130 then ['i', Char.ofNat 0x0307]
  else [c.toLower]

/-- `s.toLowerCase()`. -/
def jsToLowerCase (s : String) : String :=
  String.mk (s.data.flatMap jsLowerChar)

/-- `!x` for a value that is a string or `undefined`: `undefined` and `""` are falsy. -/
def falsy : Option String → Bool
  | none => true
  | some s => s == ""

/-! ## Thrown values and responses -/

/-- What a handler can throw. -/
inductive Thrown where
  /-- `new ApiError(statusCode, message)` -/
  | apiError (statusCode : Nat) (message : String)
  /-- a host-language `TypeError` (member access on `undefined` or `null`, call of a non-function) -/
  | typeError (detail : String)
  /-- the schema validation error of the persistence library, naming the offending path -/
  | validationError (path : String)
  /-- the store's duplicate-key error raised by a unique index -/
  | duplicateKey (index : String)
  /-- an error raised by a library or an external collaborator -/
  | rejected (detail : String)
  deriving DecidableEq, Repr

/-- `new ApiResponse(statusCode, data, message)`. -/
structure ApiResponse (α : Type) where
  statusCode : Nat
  data : α
  message : String
  deriving DecidableEq, Repr

/-! ## Documents -/

/-- A document of the `Playlist` model (`playlistSchema`). -/
structure Playlist where
  _id : String
  name : String
  description : String
  videos : List String
  owner : String
  deriving DecidableEq, Repr

/-- A document of the `Video` model: the fields the handlers read and write. -/
structure Video where
  _id : String
  title : String
  description : String
  videoFile : String
  thumbnail : String
  duration : Nat
  owner : String
  deriving DecidableEq, Repr

/-- The two collections the playlist handlers use. -/
structure Db where
  playlists : List Playlist
  videos : List Video
  deriving DecidableEq, Repr

/-! ## Persistence primitives -/

/-- `Video.findById(id)`: the first document with that `_id`, or `null`. -/
def Video.findById (vs : List Video) (id : String) : Option Video :=
  vs.find? (fun v => v._id == id)

/-- `Playlist.findOne(filter)`: the first document the filter matches, or `null`. -/
def Playlist.findOne (ps : List Playlist) (filter : Playlist → Bool) : Option Playlist :=
  ps.find? filter

/-- `Playlist.findOneAndUpdate(filter, update, { new: true })`: the first document the
filter matches is replaced by its update, which is returned; `null` and no change when
nothing matches. -/
def Playlist.findOneAndUpdate (filter : Playlist → Bool) (update : Playlist → Playlist) :
    List Playlist → List Playlist × Option Playlist
  | [] => ([], none)
  | p :: rest =>
    if filter p then (update p :: rest, some (update p))
    else
      let r := Playlist.findOneAndUpdate filter update rest
      (p :: r.1, r.2)

/-- The filter `{ _id: playlistId, owner: req.user._id }`. -/
def ownedBy (playlistId user : String) (p : Playlist) : Bool :=
  p._id == playlistId && p.owner == user

/-- The filter `{ _id: playlistId }` of `getPlaylistById`. -/
def hasId (playlistId : String) (p : Playlist) : Bool :=
  p._id == playlistId

/-- The update `{ $addToSet: { videos: videoId } }`: append unless already a member. -/
def addToSet (videoId : String) (p : Playlist) : Playlist :=
  if videoId ∈ p.videos then p else { p with videos := p.videos ++ [videoId] }

/-- The update `{ $pull: { videos: videoId } }`: remove every occurrence. -/
def pull (videoId : String) (p : Playlist) : Playlist :=
  { p with videos := p.videos.filter (fun x => x != videoId) }

/-- The fields `createPlaylist` hands to `Playlist.create`. -/
structure NewPlaylist where
  name : String
  description : String
  owner : String
  deriving DecidableEq, Repr

/-- `Playlist.create(doc)` under `playlistSchema`: both string paths are trimmed
(`trim: true`), then the `required: true` validators run (for a string path the empty
string does not satisfy `required`), then the insert is checked against the unique index
`{ owner: 1, name: 1 }`.  `videos` starts empty; `newId` is the `_id` the store assigns. -/
def Playlist.create (db : Db) (newId : String) (doc : NewPlaylist) :
    Db × Except Thrown Playlist :=
  let name := jsTrim doc.name
  let description := jsTrim doc.description
  if name == "" then (db, .error (.validationError "name"))
  else if description == "" then (db, .error (.validationError "description"))
  else if db.playlists.any (fun p => p.owner == doc.owner && p.name == name) then
    (db, .error (.duplicateKey "owner_1_name_1"))
  else
    let playlist : Playlist :=
      { _id := newId, name := name, description := description, videos := [],
        owner := doc.owner }
    ({ db with playlists := db.playlists ++ [playlist] }, .ok playlist)

/-! ## playlist.controller.js -/

/-- `req.params` of the membership routes. -/
structure MemberParams where
  playlistId : Option String
  videoId : Option String
  deriving DecidableEq, Repr

/-- `req.body` of `createPlaylist`. -/
structure PlaylistBody where
  name : Option String
  description : Option String
  deriving DecidableEq, Repr

/-- `createPlaylist`; `user` is `req.user._id`.  A created document is an object, so the
`!playlist` check after `Playlist.create` never fires. -/
def createPlaylist (db : Db) (newId user : String) (body : PlaylistBody) :
    Db × Except Thrown (ApiResponse Playlist) :=
  match body.name with
  | none => (db, .error (.apiError 400 "Playlist name is required"))
  | some name =>
    if name == "" || jsTrim name == "" then
      (db, .error (.apiError 400 "Playlist name is required"))
    else
      match body.description with
      | none => (db, .error (.typeError "description.trim"))
      | some description =>
        let d := if jsTrim description == "" then "" else jsTrim description
        match Playlist.create db newId { name := name, description := d, owner := user } with
        | (db1, .error e) => (db1, .error e)
        | (db1, .ok playlist) =>
          (db1, .ok ⟨200, playlist, "Playlist created successfully"⟩)

/-- `addVideoToPlaylist`; `user` is `req.user._id`. -/
def addVideoToPlaylist (db : Db) (user : String) (params : MemberParams) :
    Db × Except Thrown (ApiResponse Playlist) :=
  if falsy params.playlistId || falsy params.videoId then
    (db, .error (.apiError 400 "Both playlist ID and video ID are required"))
  else
    let playlistId := params.playlistId.getD ""
    let videoId := params.videoId.getD ""
    match Video.findById db.videos videoId with
    | none => (db, .error (.apiError 400 "Video not found"))
    | some _ =>
      match Playlist.findOneAndUpdate (ownedBy playlistId user) (addToSet videoId)
          db.playlists with
      | (_, none) => (db, .error (.apiError 500 "Failed to add video to playlist"))
      | (ps, some playlist) =>
        ({ db with playlists := ps },
          .ok ⟨200, playlist, "Video added to playlist successfully"⟩)

/-- `removeVideoFromPlaylist`; `user` is `req.user._id`. -/
def removeVideoFromPlaylist (db : Db) (user : String) (params : MemberParams) :
    Db × Except Thrown (ApiResponse Playlist) :=
  if falsy params.playlistId || falsy params.videoId then
    (db, .error (.apiError 400 "Both playlist ID and video ID are required"))
  else
    let playlistId := params.playlistId.getD ""
    let videoId := params.videoId.getD ""
    match Video.findById db.videos videoId with
    | none => (db, .error (.apiError 400 "Video not found"))
    | some _ =>
      match Playlist.findOneAndUpdate (ownedBy playlistId user) (pull videoId)
          db.playlists with
      | (_, none) => (db, .error (.apiError 500 "Failed to remove video from playlist"))
      | (ps, some playlist) =>
        ({ db with playlists := ps },
          .ok ⟨200, playlist, "Video removed from playlist successfully"⟩)

/-! ## Asset store and video collection -/

/-- What `uploadOnCloudinary` resolves with when the upload went through. -/
structure Asset where
  secure_url : String
  duration : Nat
  deriving DecidableEq, Repr

/-- How an awaited helper call settles. -/
inductive Settled (α : Type) where
  /-- resolved with a result -/
  | value (a : α)
  /-- resolved with a falsy value: the helper reports its failure through the result, the
  way the callers of `uploadOnCloudinary` test for it (`if (!videoFile)`) -/
  | null
  /-- the promise rejects and `await` rethrows -/
  | rejects (e : Thrown)
  deriving DecidableEq, Repr

/-- The helpers of `utils/cloudinary.js`, whose text is not among the sources: each is a
parameter giving, per argument, how the call settles. -/
structure Cloudinary where
  uploadOnCloudinary : String → Settled Asset
  deleteFromCloudinary : String → Settled Unit

/-- The update object `updateVideo` passes to `Video.findByIdAndUpdate`; a `thumbnail` of
`none` is the value `undefined`. -/
structure VideoPatch where
  title : String
  description : String
  thumbnail : Option String
  deriving DecidableEq, Repr

/-- The calls a video handler issues to the asset store and to the video collection. -/
inductive Effect where
  | upload (localPath : String)
  | destroy (url : String)
  | insertRecord (id : String)
  | updateRecord (id : String) (patch : VideoPatch)
  | deleteRecord (id : String)
  deriving DecidableEq, Repr

/-- The state the video handlers act on: the video collection, the urls of the objects
the asset store holds, and the calls issued so far, oldest first. -/
structure World where
  videos : List Video
  assets : List String
  trace : List Effect
  deriving DecidableEq, Repr

/-- `await uploadOnCloudinary(localPath)`: the call is logged; when it resolves with an
asset the store holds that asset's url from then on. -/
def World.upload (cloud : Cloudinary) (w : World) (localPath : String) :
    World × Settled Asset :=
  let w1 := { w with trace := w.trace ++ [Effect.upload localPath] }
  match cloud.uploadOnCloudinary localPath with
  | .value a => ({ w1 with assets := w1.assets ++ [a.secure_url] }, .value a)
  | .null => (w1, .null)
  | .rejects e => (w1, .rejects e)

/-- `await deleteFromCloudinary(url)`: the call is logged; when it resolves with a result
the store no longer holds `url`; a failed call leaves the store as it was. -/
def World.destroy (cloud : Cloudinary) (w : World) (url : String) :
    World × Settled Unit :=
  let w1 := { w with trace := w.trace ++ [Effect.destroy url] }
  match cloud.deleteFromCloudinary url with
  | .value u => ({ w1 with assets := w1.assets.filter (fun a => a != url) }, .value u)
  | .null => (w1, .null)
  | .rejects e => (w1, .rejects e)

/-- `Video.findByIdAndUpdate(id, patch, { new: true })`: the first document with that
`_id` gets the patch and is returned; `null` when there is none.  A key whose value is
`undefined` is dropped from the update, so that path keeps its value. -/
def Video.findByIdAndUpdate (id : String) (patch : VideoPatch) :
    List Video → List Video × Option Video
  | [] => ([], none)
  | v :: rest =>
    if v._id == id then
      let u : Video :=
        { v with title := patch.title, description := patch.description,
                 thumbnail := patch.thumbnail.getD v.thumbnail }
      (u :: rest, some u)
    else
      let r := Video.findByIdAndUpdate id patch rest
      (v :: r.1, r.2)

/-- `Video.findByIdAndDelete(id)`: the first document with that `_id` is removed and
returned; `null` when there is none. -/
def Video.findByIdAndDelete (id : String) : List Video → List Video × Option Video
  | [] => ([], none)
  | v :: rest =>
    if v._id == id then (rest, some v)
    else
      let r := Video.findByIdAndDelete id rest
      (v :: r.1, r.2)

/-! ## video.Controller.js -/

/-- `getVideoByIdUtil`, with `videoId` being `req.params.videoId`. -/
def getVideoByIdUtil (videos : List Video) (videoId : Option String) : Except Thrown Video :=
  if falsy videoId then .error (.apiError 400 "videoId is required ")
  else
    match Video.findById videos (videoId.getD "") with
    | none => .error (.apiError 404 "video not found")
    | some video => .ok video

/-- One entry of `req.files.<field>`, or `req.file`. -/
structure UploadedFile where
  path : String
  deriving DecidableEq, Repr

/-- `req.files` of `publishVideo`; `none` is a field that is not an array. -/
structure PublishFiles where
  video : Option (List UploadedFile)
  thumbnail : Option (List UploadedFile)
  deriving DecidableEq, Repr

/-- The request of `publishVideo`: `req.body`, `req.files` and `req.user._id`. -/
structure PublishRequest where
  title : Option String
  description : Option String
  files : Option PublishFiles
  user : String
  deriving DecidableEq, Repr

/-- The path picked by `Array.isArray(xs) && xs.length > 0` then `xs[0].path`, else
`undefined`. -/
def firstPath : Option (List UploadedFile) → Option String
  | some (f :: _) => some f.path
  | _ => none

/-- `publishVideo`.  `[title, description].some(...)` looks at `title` first and stops at
the first blank field.  `newId` is the `_id` the store assigns; a created document is an
object, so the `!video` check after `Video.create` never fires. -/
def publishVideo (cloud : Cloudinary) (w : World) (newId : String) (req : PublishRequest) :
    World × Except Thrown (ApiResponse Video) :=
  match req.title with
  | none => (w, .error (.typeError "field.trim"))
  | some title =>
    if jsTrim title == "" then
      (w, .error (.apiError 400 "Title and Description are required"))
    else
      match req.description with
      | none => (w, .error (.typeError "field.trim"))
      | some description =>
        if jsTrim description == "" then
          (w, .error (.apiError 400 "Title and Description are required"))
        else
          let videoLocalPath := req.files.bind (fun fs => firstPath fs.video)
          if falsy videoLocalPath then
            (w, .error (.apiError 400 "Video file is required"))
          else
            let thumbnailLocalPath := req.files.bind (fun fs => firstPath fs.thumbnail)
            if falsy thumbnailLocalPath then
              (w, .error (.apiError 400 "Thumbnail file is required"))
            else
              match World.upload cloud w (videoLocalPath.getD "") with
              | (w1, .rejects e) => (w1, .error e)
              | (w1, .null) =>
                (w1, .error (.apiError 500 "Error occurs while uploading video on cloud"))
              | (w1, .value videoFile) =>
                match World.upload cloud w1 (thumbnailLocalPath.getD "") with
                | (w2, .rejects e) => (w2, .error e)
                | (w2, .null) =>
                  (w2, .error
                    (.apiError 500 "Error occurs while uploading thumbnail on cloud "))
                | (w2, .value thumbnail) =>
                  let video : Video :=
                    { _id := newId, title := title, description := description,
                      videoFile := videoFile.secure_url,
                      thumbnail := thumbnail.secure_url,
                      duration := videoFile.duration, owner := req.user }
                  ({ w2 with videos := w2.videos ++ [video],
                             trace := w2.trace ++ [Effect.insertRecord newId] },
                    .ok ⟨200, video, "video Published successfully"⟩)

/-- The request of `updateVideo`: `req.params.videoId`, `req.body` and `req.file`. -/
structure UpdateRequest where
  videoId : Option String
  title : Option String
  description : Option String
  file : Option UploadedFile
  deriving DecidableEq, Repr

/-- The values the variable `thumbnail` of `updateVideo` takes: the stored url (a string),
or what `uploadOnCloudinary` resolved with (an asset, or a falsy value). -/
inductive ThumbnailValue where
  | url (s : String)
  | uploaded (a : Asset)
  | null
  deriving DecidableEq, Repr

/-- The expression `thumbnail.secure_url`: a string has no such property, so it is
`undefined`; an asset gives its url; on a falsy value the access throws. -/
def ThumbnailValue.secure_url : ThumbnailValue → Except Thrown (Option String)
  | .url _ => .ok none
  | .uploaded a => .ok (some a.secure_url)
  | .null => .error (.typeError "thumbnail.secure_url")

/-- The path of `req.file && req.file.path` when that is truthy. -/
def newThumbnailPath (file : Option UploadedFile) : Option String :=
  match file with
  | some f => if f.path == "" then none else some f.path
  | none => none

/-- The block of `updateVideo` that settles `thumbnail`: with a new file, upload it and
then delete the old thumbnail; without one, keep the stored url. -/
def updateThumbnail (cloud : Cloudinary) (w : World) (video : Video)
    (file : Option UploadedFile) : World × Except Thrown ThumbnailValue :=
  match newThumbnailPath file with
  | none => (w, .ok (.url video.thumbnail))
  | some thumbnailLocalPath =>
    match World.upload cloud w thumbnailLocalPath with
    | (w1, .rejects e) => (w1, .error e)
    | (w1, uploaded) =>
      let thumbnail : ThumbnailValue :=
        match uploaded with
        | .value a => .uploaded a
        | _ => .null
      match World.destroy cloud w1 video.thumbnail with
      | (w2, .rejects e) => (w2, .error e)
      | (w2, _) => (w2, .ok thumbnail)

/-- `updateVideo`.  The update object is built, and `thumbnail.secure_url` evaluated,
before `Video.findByIdAndUpdate` is called. -/
def updateVideo (cloud : Cloudinary) (w : World) (req : UpdateRequest) :
    World × Except Thrown (ApiResponse Video) :=
  match getVideoByIdUtil w.videos req.videoId with
  | .error e => (w, .error e)
  | .ok video =>
    let title := jsTrim (req.title.getD video.title)
    let description := jsTrim (req.description.getD video.description)
    if title == video.title && description == video.description
        && (newThumbnailPath req.file).isNone then
      (w, .error (.apiError 400 "Please change title or description or thumbnail"))
    else if title == "" || description == "" then
      (w, .error (.apiError 400 "title and description required"))
    else
      match updateThumbnail cloud w video req.file with
      | (w2, .error e) => (w2, .error e)
      | (w2, .ok thumbnail) =>
        match thumbnail.secure_url with
        | .error e => (w2, .error e)
        | .ok url =>
          let patch : VideoPatch :=
            { title := title, description := description, thumbnail := url }
          let w3 := { w2 with trace := w2.trace ++ [Effect.updateRecord video._id patch] }
          match Video.findByIdAndUpdate video._id patch w3.videos with
          | (_, none) => (w3, .error (.apiError 500 "video not update successfully"))
          | (vs, some updatedVideo) =>
            ({ w3 with videos := vs }, .ok ⟨200, updatedVideo, "video updated successfully"⟩)

/-- `deleteVideo`, with `videoId` being `req.params.videoId`.  `getVideoByIdUtil` returns
a document or throws, so the `!video` check after it never fires. -/
def deleteVideo (cloud : Cloudinary) (w : World) (videoId : Option String) :
    World × Except Thrown (ApiResponse Video) :=
  match getVideoByIdUtil w.videos videoId with
  | .error e => (w, .error e)
  | .ok video =>
    match World.destroy cloud w video.videoFile with
    | (w1, .rejects e) => (w1, .error e)
    | (w1, _) =>
      match World.destroy cloud w1 video.thumbnail with
      | (w2, .rejects e) => (w2, .error e)
      | (w2, _) =>
        let w3 := { w2 with trace := w2.trace ++ [Effect.deleteRecord video._id] }
        match Video.findByIdAndDelete video._id w3.videos with
        | (_, none) => (w3, .error (.apiError 500 "video does not delete"))
        | (vs, some deletedVideo) =>
          ({ w3 with videos := vs }, .ok ⟨200, deletedVideo, "video deleted successfully"⟩)

/-! ### getAllVideos -/

/-- `req.query` of `getAllVideos`; `none` is an absent parameter. -/
structure VideoQuery where
  page : Option String
  limit : Option String
  sortBy : Option String
  sortType : Option String
  userId : Option String
  isPublished : Option String
  deriving DecidableEq, Repr

/-- Library conversions `getAllVideos` calls, taken as parameters.  `number s` is
`Number(s)`: `some i` when the result is the integer `i`, `none` for every other number
(`NaN` included).  `objectId s` is `new mongoose.Types.ObjectId(s)`: the id, or `none`
when the constructor throws. -/
structure Host where
  number : String → Option Int
  objectId : String → Option String

/-- A value passed through untouched: the numeric default or the raw query string. -/
inductive Param where
  | num (n : Int)
  | str (s : String)
  deriving DecidableEq, Repr

/-- The values `myMatch` holds. -/
inductive MatchValue where
  | objectId (id : String)
  | bool (b : Bool)
  deriving DecidableEq, Repr

/-- The object `options`; `sort` lists the keys of the sort object in order. -/
structure PaginateOptions where
  page : Param
  limit : Param
  sort : List (String × Int)
  deriving DecidableEq, Repr

/-- What `getAllVideos` hands to `Video.aggregatePaginate`: the `$match` stage of the
aggregate, listed key by key, and `options`. -/
structure PaginateCall where
  myMatch : List (String × MatchValue)
  options : PaginateOptions
  deriving DecidableEq, Repr

/-- Line 91: `sortBy.toLowerCase().trim()`, with the default `"date"`. -/
def sortingByOf (q : VideoQuery) : String :=
  jsTrim (jsToLowerCase (q.sortBy.getD "date"))

/-- Line 96: `Number(sortType)`, with the numeric default `1`. -/
def sortingTypeOf (host : Host) (q : VideoQuery) : Option Int :=
  match q.sortType with
  | none => some 1
  | some s => host.number s

/-- Lines 84 to 132 of `getAllVideos`: validation, then `myMatch` and `options`.  The
defaults of the destructuring apply to absent parameters; the default of `isPublished`
is the boolean `true`, which has no `toLowerCase`. -/
def getAllVideosPlan (host : Host) (q : VideoQuery) : Except Thrown PaginateCall :=
  if falsy q.userId then .error (.apiError 404 "userId is necessary")
  else
    let sortingBy := sortingByOf q
    if sortingBy != "date" && sortingBy != "views" && sortingBy != "title"
        && sortingBy != "duration" then
      .error (.apiError 404 "Invalid sortBy")
    else
      match sortingTypeOf host q with
      | none => .error (.apiError 404 "Invalid sorting Type")
      | some sortingType =>
        if sortingType != 1 && sortingType != -1 then
          .error (.apiError 404 "Invalid sorting Type")
        else
          match q.isPublished with
          | none => .error (.typeError "isPublished.toLowerCase")
          | some isPublished =>
            let isPublishedStatus := jsTrim (jsToLowerCase isPublished)
            if isPublishedStatus != "true" && isPublishedStatus != "false"
                && isPublishedStatus != "all" then
              .error (.apiError 400 "Invalid published Status")
            else
              let sortingBy := if sortingBy == "date" then "createdAt" else sortingBy
              match host.objectId (q.userId.getD "") with
              | none => .error (.rejected "ObjectId")
              | some owner =>
                let myMatch : List (String × MatchValue) :=
                  [("owner", .objectId owner)] ++
                    (if isPublishedStatus != "all" then
                      [("isPublished", .bool (isPublishedStatus == "true"))]
                    else [])
                .ok
                  { myMatch := myMatch,
                    options :=
                      { page := (q.page.map Param.str).getD (.num 1),
                        limit := (q.limit.map Param.str).getD (.num 10),
                        sort := [(sortingBy, sortingType)] } }

/-- How `Video.aggregatePaginate` calls back: with an error, with results, or with
neither. -/
inductive Paginated (ρ : Type) where
  | err (e : String)
  | results (r : ρ)
  | nothing
  deriving DecidableEq, Repr

/-- `getAllVideos`; `paginate` is `Video.aggregatePaginate` of the paginator plugin. -/
def getAllVideos {ρ : Type} (host : Host) (paginate : PaginateCall → Paginated ρ)
    (q : VideoQuery) : Except Thrown (ApiResponse ρ) :=
  match getAllVideosPlan host q with
  | .error e => .error e
  | .ok call =>
    match paginate call with
    | .err e => .error (.apiError 500 e)
    | .nothing => .error (.apiError 404 "Videos not found")
    | .results videos => .ok ⟨200, videos, "Videos fetched successfully"⟩

/-! ## Sample states -/

/-- One playlist of `u1` holding `v2`, and one stored video `v1`. -/
def sampleDb : Db :=
  { playlists := [⟨"p1", "Favorites", "mine", ["v2"], "u1"⟩],
    videos := [⟨"v1", "t", "d", "cdn/v1", "cdn/t1", 3, "u1"⟩] }

/-- The state of `sampleDb` with its ids written out as `ObjectId`s: user
`65f0000000000000000000c1` owns playlist `65f0000000000000000000b1`, which holds video
`65f0000000000000000000a2`; the one stored video is `65f0000000000000000000a1`. -/
def objectIdDb : Db :=
  { playlists :=
      [⟨"65f0000000000000000000b1", "Favorites", "mine", ["65f0000000000000000000a2"],
        "65f0000000000000000000c1"⟩],
    videos :=
      [⟨"65f0000000000000000000a1", "t", "d", "cdn/v1", "cdn/t1", 3,
        "65f0000000000000000000c1"⟩] }

/-- One stored video whose two assets the asset store holds; nothing issued yet. -/
def sampleWorld : World :=
  { videos := [⟨"v1", "t", "d", "cdn/v1", "cdn/t1", 3, "u1"⟩],
    assets := ["cdn/v1", "cdn/t1"],
    trace := [] }

/-- An asset store client for which the uploads of `v.mp4` and `new.png` go through,
every other upload resolves with a falsy value, and every deletion goes through. -/
def sampleCloud : Cloudinary :=
  { uploadOnCloudinary := fun localPath =>
      if localPath == "v.mp4" then .value ⟨"cdn/v", 12⟩
      else if localPath == "new.png" then .value ⟨"cdn/new", 0⟩
      else .null,
    deleteFromCloudinary := fun _ => .value () }

/-- As `sampleCloud`, but every deletion fails and says so through its result. -/
def failingDeleteCloud : Cloudinary :=
  { sampleCloud with deleteFromCloudinary := fun _ => .null }

/-- As `sampleCloud`, but the deletion of `cdn/t1` rejects. -/
def rejectingDeleteCloud : Cloudinary :=
  { sampleCloud with
    deleteFromCloudinary := fun url =>
      if url == "cdn/t1" then .rejects (.rejected "asset store unavailable") else .value () }

/-- A publish request carrying a video file and a thumbnail file whose upload fails. -/
def samplePublish : PublishRequest :=
  { title := some "Title", description := some "About",
    files := some ⟨some [⟨"v.mp4"⟩], some [⟨"t.png"⟩]⟩, user := "u1" }

/-- The value of a string of decimal digits, `none` when another character occurs. -/
def digitsValue (cs : List Char) : Option Nat :=
  cs.foldl
    (fun acc c => acc.bind (fun n => if c.isDigit then some (10 * n + (c.toNat - 48)) else none))
    (some 0)

/-- `Number(s)` on signed decimal integer literals, the only shape the sample queries
use; a string of another shape counts as a non-integer here. -/
def decimalNumber (s : String) : Option Int :=
  match (jsTrim s).data with
  | [] => some 0
  | '-' :: ds => if ds.isEmpty then none else (digitsValue ds).map (fun n => -(n : Int))
  | '+' :: ds => if ds.isEmpty then none else (digitsValue ds).map (fun n => (n : Int))
  | ds => (digitsValue ds).map (fun n => (n : Int))

/-- Library conversions for the sample queries: decimal integer literals, and object
ids of 24 characters. -/
def sampleHost : Host :=
  { number := decimalNumber,
    objectId := fun s => if s.length == 24 then some s else none }

/-- The query of the paging example: page 2 of 5, by views descending, published only. -/
def sampleQuery : VideoQuery :=
  { page := some "2", limit := some "5", sortBy := some "views", sortType := some "-1",
    userId := some "65f000000000000000000001", isPublished := some "true" }

/-! ## Trace properties -/

/-- In a trace, no deletion of the asset `old` is issued before the first record update. -/
def deleteFollowsUpdate (old : String) : List Effect → Bool
  | [] => true
  | .updateRecord _ _ :: _ => true
  | .destroy url :: rest => if url == old then false else deleteFollowsUpdate old rest
  | _ :: rest => deleteFollowsUpdate old rest

/-! ## Lemmas on the persistence primitives -/

theorem falsy_some_eq_false {s : String} (h : s ≠ "") : falsy (some s) = false := by
  simp [falsy, h]

theorem findOneAndUpdate_of_find_none (f : Playlist → Bool) (u : Playlist → Playlist)
    (ps : List Playlist) (h : ps.find? f = none) :
    Playlist.findOneAndUpdate f u ps = (ps, none) := by
  induction ps with
  | nil => rfl
  | cons p rest ih =>
    by_cases hp : f p = true
    · simp [List.find?, hp] at h
    · have hrest : rest.find? f = none := by simpa [List.find?, hp] using h
      simp [Playlist.findOneAndUpdate, hp, ih hrest]

theorem findOneAndUpdate_snd (f : Playlist → Bool) (u : Playlist → Playlist)
    (ps : List Playlist) (pl : Playlist) (h : ps.find? f = some pl) :
    (Playlist.findOneAndUpdate f u ps).2 = some (u pl) := by
  induction ps with
  | nil => simp at h
  | cons p rest ih =>
    by_cases hp : f p = true
    · have : p = pl := by simpa [List.find?, hp] using h
      subst this
      simp [Playlist.findOneAndUpdate, hp]
    · have hrest : rest.find? f = some pl := by simpa [List.find?, hp] using h
      simp [Playlist.findOneAndUpdate, hp, ih hrest]

theorem findOneAndUpdate_fixed (f : Playlist → Bool) (u : Playlist → Playlist)
    (ps : List Playlist) (pl : Playlist) (h : ps.find? f = some pl) (hu : u pl = pl) :
    Playlist.findOneAndUpdate f u ps = (ps, some pl) := by
  induction ps with
  | nil => simp at h
  | cons p rest ih =>
    by_cases hp : f p = true
    · have : p = pl := by simpa [List.find?, hp] using h
      subst this
      simp [Playlist.findOneAndUpdate, hp, hu]
    · have hrest : rest.find? f = some pl := by simpa [List.find?, hp] using h
      simp [Playlist.findOneAndUpdate, hp, ih hrest]

theorem find_findOneAndUpdate (f : Playlist → Bool) (u : Playlist → Playlist)
    (ps : List Playlist) (pl : Playlist) (h : ps.find? f = some pl)
    (hf : f (u pl) = true) :
    (Playlist.findOneAndUpdate f u ps).1.find? f = some (u pl) := by
  induction ps with
  | nil => simp at h
  | cons p rest ih =>
    by_cases hp : f p = true
    · have : p = pl := by simpa [List.find?, hp] using h
      subst this
      simp [Playlist.findOneAndUpdate, hp, List.find?, hf]
    · have hrest : rest.find? f = some pl := by simpa [List.find?, hp] using h
      simp [Playlist.findOneAndUpdate, hp, List.find?, ih hrest]

theorem ownedBy_addToSet (playlistId user videoId : String) (pl : Playlist) :
    ownedBy playlistId user (addToSet videoId pl) = ownedBy playlistId user pl := by
  unfold addToSet ownedBy
  split <;> rfl

theorem addToSet_addToSet (videoId : String) (pl : Playlist) :
    addToSet videoId (addToSet videoId pl) = addToSet videoId pl := by
  unfold addToSet
  by_cases h : videoId ∈ pl.videos <;> simp [h]

theorem mem_addToSet (videoId : String) (pl : Playlist) :
    videoId ∈ (addToSet videoId pl).videos := by
  unfold addToSet
  by_cases h : videoId ∈ pl.videos <;> simp [h]

theorem addToSet_nodup (videoId : String) (pl : Playlist) (h : pl.videos.Nodup) :
    (addToSet videoId pl).videos.Nodup := by
  unfold addToSet
  by_cases hm : videoId ∈ pl.videos
  · simpa [hm] using h
  · simp only [hm, if_false]
    exact List.Nodup.append h (List.nodup_singleton _) (by simpa using hm)

theorem pull_of_not_mem (videoId : String) (pl : Playlist) (h : videoId ∉ pl.videos) :
    pull videoId pl = pl := by
  have hfilter : pl.videos.filter (fun x => x != videoId) = pl.videos := by
    apply List.filter_eq_self.mpr
    intro x hx
    have : x ≠ videoId := fun e => h (e ▸ hx)
    simpa using this
  cases pl
  simp_all [pull]

/-- A successful `addVideoToPlaylist` on any state: what it returns and what the same
call returns when repeated on the state it left. -/
theorem addVideoToPlaylist_twice (db : Db) (user p v : String) (video : Video)
    (pl : Playlist) (hp : p ≠ "") (hv : v ≠ "")
    (hvideo : Video.findById db.videos v = some video)
    (hpl : Playlist.findOne db.playlists (ownedBy p user) = some pl) :
    (addVideoToPlaylist db user ⟨some p, some v⟩).2
        = .ok ⟨200, addToSet v pl, "Video added to playlist successfully"⟩ ∧
    addVideoToPlaylist (addVideoToPlaylist db user ⟨some p, some v⟩).1 user ⟨some p, some v⟩
        = ((addVideoToPlaylist db user ⟨some p, some v⟩).1,
            .ok ⟨200, addToSet v pl, "Video added to playlist successfully"⟩) ∧
    Playlist.findOne (addVideoToPlaylist db user ⟨some p, some v⟩).1.playlists
        (ownedBy p user) = some (addToSet v pl) := by
  unfold Playlist.findOne at hpl
  have hown : ownedBy p user (addToSet v pl) = true := by
    rw [ownedBy_addToSet]; exact List.find?_some hpl
  have h2 := findOneAndUpdate_snd (ownedBy p user) (addToSet v) db.playlists pl hpl
  have hfind := find_findOneAndUpdate (ownedBy p user) (addToSet v) db.playlists pl hpl hown
  have hfix := findOneAndUpdate_fixed (ownedBy p user) (addToSet v) _ _ hfind
    (addToSet_addToSet v pl)
  have hfirst : addVideoToPlaylist db user ⟨some p, some v⟩
      = ({ db with playlists :=
              (Playlist.findOneAndUpdate (ownedBy p user) (addToSet v) db.playlists).1 },
          .ok ⟨200, addToSet v pl, "Video added to playlist successfully"⟩) := by
    unfold addVideoToPlaylist
    simp only [falsy_some_eq_false hp, falsy_some_eq_false hv, Bool.or_self,
      Bool.false_eq_true, if_false, Option.getD_some, hvideo]
    generalize hr : Playlist.findOneAndUpdate (ownedBy p user) (addToSet v) db.playlists = r
    rw [hr] at h2
    obtain ⟨ps, o⟩ := r
    simp only at h2
    subst h2
    rfl
  refine ⟨by rw [hfirst], ?_, by rw [hfirst]; exact hfind⟩
  rw [hfirst]
  unfold addVideoToPlaylist
  simp only [falsy_some_eq_false hp, falsy_some_eq_false hv, Bool.or_self,
    Bool.false_eq_true, if_false, Option.getD_some, hvideo, hfix]

/-! ## Lemmas on trimming -/

theorem dropWhile_rdropWhile_dropWhile (p : Char → Bool) (l : List Char) :
    (List.rdropWhile p (l.dropWhile p)).dropWhile p = List.rdropWhile p (l.dropWhile p) := by
  have hm : (l.dropWhile p).dropWhile p = l.dropWhile p := List.dropWhile_idempotent p l
  generalize l.dropWhile p = m at hm
  cases m with
  | nil => simp [List.rdropWhile]
  | cons a m1 =>
    have ha : ¬ p a = true := by
      have := (List.dropWhile_eq_self_iff).mp hm (by simp)
      simpa using this
    obtain ⟨s, hs⟩ := List.rdropWhile_prefix p (l := a :: m1)
    generalize List.rdropWhile p (a :: m1) = t at hs
    cases t with
    | nil => rfl
    | cons b t1 =>
      have hb : b = a := by
        simp only [List.cons_append, List.cons.injEq] at hs
        exact hs.1
      subst hb
      simp [List.dropWhile, ha]

theorem jsTrim_eq (s : String) :
    jsTrim s = String.mk (List.rdropWhile jsIsWhiteSpace (s.data.dropWhile jsIsWhiteSpace)) := rfl

theorem jsTrim_jsTrim (s : String) : jsTrim (jsTrim s) = jsTrim s := by
  rw [jsTrim_eq (jsTrim s), jsTrim_eq s]
  simp only [dropWhile_rdropWhile_dropWhile, List.rdropWhile_idempotent]

theorem ne_empty_of_jsTrim_ne_empty {s : String} (h : jsTrim s ≠ "") : s ≠ "" := by
  intro hs
  subst hs
  exact h rfl

/-! ## Playlist membership -/

/-- C1: `addVideoToPlaylist` is idempotent.  For an existing video `v` and a playlist `p`
the requester owns (ids being non-empty strings, the stored sequence being free of
duplicates as the data model requires), the call succeeds with status 200, the same call
repeated on the resulting state succeeds again with the same response and leaves that
state as it is, and the playlist then holds `v` exactly once. -/
theorem addVideoToPlaylist_idempotent (db : Db) (user p v : String) (video : Video)
    (pl : Playlist) (hp : p ≠ "") (hv : v ≠ "")
    (hvideo : Video.findById db.videos v = some video)
    (hpl : Playlist.findOne db.playlists (ownedBy p user) = some pl)
    (hnodup : pl.videos.Nodup) :
    (addVideoToPlaylist db user ⟨some p, some v⟩).2
        = .ok ⟨200, addToSet v pl, "Video added to playlist successfully"⟩ ∧
    addVideoToPlaylist (addVideoToPlaylist db user ⟨some p, some v⟩).1 user ⟨some p, some v⟩
        = ((addVideoToPlaylist db user ⟨some p, some v⟩).1,
            .ok ⟨200, addToSet v pl, "Video added to playlist successfully"⟩) ∧
    Playlist.findOne (addVideoToPlaylist db user ⟨some p, some v⟩).1.playlists
        (ownedBy p user) = some (addToSet v pl) ∧
    (addToSet v pl).videos.count v = 1 ∧
    (addToSet v pl).videos.Nodup := by
  obtain ⟨h1, h2, h3⟩ := addVideoToPlaylist_twice db user p v video pl hp hv hvideo hpl
  exact ⟨h1, h2, h3,
    List.count_eq_one_of_mem (addToSet_nodup v pl hnodup) (mem_addToSet v pl),
    addToSet_nodup v pl hnodup⟩

theorem addVideoToPlaylist_idempotent_witness :
    (addVideoToPlaylist sampleDb "u1" ⟨some "p1", some "v1"⟩).2
        = .ok ⟨200, ⟨"p1", "Favorites", "mine", ["v2", "v1"], "u1"⟩,
            "Video added to playlist successfully"⟩ ∧
    addVideoToPlaylist (addVideoToPlaylist sampleDb "u1" ⟨some "p1", some "v1"⟩).1 "u1"
        ⟨some "p1", some "v1"⟩
        = ((addVideoToPlaylist sampleDb "u1" ⟨some "p1", some "v1"⟩).1,
            .ok ⟨200, ⟨"p1", "Favorites", "mine", ["v2", "v1"], "u1"⟩,
              "Video added to playlist successfully"⟩) ∧
    Playlist.findOne (addVideoToPlaylist sampleDb "u1" ⟨some "p1", some "v1"⟩).1.playlists
        (ownedBy "p1" "u1") = some ⟨"p1", "Favorites", "mine", ["v2", "v1"], "u1"⟩ ∧
    (["v2", "v1"] : List String).count "v1" = 1 ∧
    (["v2", "v1"] : List String).Nodup :=
  addVideoToPlaylist_idempotent sampleDb "u1" "p1" "v1"
    ⟨"v1", "t", "d", "cdn/v1", "cdn/t1", 3, "u1"⟩ ⟨"p1", "Favorites", "mine", ["v2"], "u1"⟩
    (by decide) (by decide) rfl rfl (by decide)

/-- C2 fails as stated: `65f0000000000000000000a9` is a well-formed id that is in no
playlist and names no stored video; removing it from the playlist its owner holds is
answered with status 400, not with success. -/
theorem removeVideoFromPlaylist_unknown_video :
    Playlist.findOne objectIdDb.playlists
        (ownedBy "65f0000000000000000000b1" "65f0000000000000000000c1")
      = some ⟨"65f0000000000000000000b1", "Favorites", "mine",
          ["65f0000000000000000000a2"], "65f0000000000000000000c1"⟩ ∧
    "65f0000000000000000000a9" ∉ ["65f0000000000000000000a2"] ∧
    Video.findById objectIdDb.videos "65f0000000000000000000a9" = none ∧
    removeVideoFromPlaylist objectIdDb "65f0000000000000000000c1"
        ⟨some "65f0000000000000000000b1", some "65f0000000000000000000a9"⟩
      = (objectIdDb, .error (.apiError 400 "Video not found")) :=
  ⟨rfl, by decide, rfl, rfl⟩

/-- C2, amended: for a playlist `p` the requester owns and an existing video `v` that is
not among its videos, `removeVideoFromPlaylist` answers with status 200 and the unchanged
playlist, and the whole state is left as it was. -/
theorem removeVideoFromPlaylist_absent (db : Db) (user p v : String) (video : Video)
    (pl : Playlist) (hp : p ≠ "") (hv : v ≠ "")
    (hvideo : Video.findById db.videos v = some video)
    (hpl : Playlist.findOne db.playlists (ownedBy p user) = some pl)
    (habsent : v ∉ pl.videos) :
    removeVideoFromPlaylist db user ⟨some p, some v⟩
        = (db, .ok ⟨200, pl, "Video removed from playlist successfully"⟩) := by
  unfold Playlist.findOne at hpl
  have hfix := findOneAndUpdate_fixed (ownedBy p user) (pull v) db.playlists pl hpl
    (pull_of_not_mem v pl habsent)
  unfold removeVideoFromPlaylist
  simp only [falsy_some_eq_false hp, falsy_some_eq_false hv, Bool.or_self,
    Bool.false_eq_true, if_false, Option.getD_some, hvideo, hfix]

theorem removeVideoFromPlaylist_absent_witness :
    removeVideoFromPlaylist objectIdDb "65f0000000000000000000c1"
        ⟨some "65f0000000000000000000b1", some "65f0000000000000000000a1"⟩
      = (objectIdDb,
          .ok ⟨200,
            ⟨"65f0000000000000000000b1", "Favorites", "mine",
              ["65f0000000000000000000a2"], "65f0000000000000000000c1"⟩,
            "Video removed from playlist successfully"⟩) :=
  removeVideoFromPlaylist_absent objectIdDb "65f0000000000000000000c1"
    "65f0000000000000000000b1" "65f0000000000000000000a1"
    ⟨"65f0000000000000000000a1", "t", "d", "cdn/v1", "cdn/t1", 3,
      "65f0000000000000000000c1"⟩
    ⟨"65f0000000000000000000b1", "Favorites", "mine", ["65f0000000000000000000a2"],
      "65f0000000000000000000c1"⟩
    (by decide) (by decide) rfl rfl (by decide)

/-- C3 fails as stated: user `65f0000000000000000000c2` does not own the existing
playlist `65f0000000000000000000b1`; adding the existing video `65f0000000000000000000a1`
is answered with status 500, which is not 403. -/
theorem addVideoToPlaylist_not_owner_status :
    Playlist.findOne objectIdDb.playlists (hasId "65f0000000000000000000b1")
      = some ⟨"65f0000000000000000000b1", "Favorites", "mine",
          ["65f0000000000000000000a2"], "65f0000000000000000000c1"⟩ ∧
    "65f0000000000000000000c1" ≠ "65f0000000000000000000c2" ∧
    (Video.findById objectIdDb.videos "65f0000000000000000000a1").isSome = true ∧
    addVideoToPlaylist objectIdDb "65f0000000000000000000c2"
        ⟨some "65f0000000000000000000b1", some "65f0000000000000000000a1"⟩
      = (objectIdDb, .error (.apiError 500 "Failed to add video to playlist")) ∧
    ∀ message,
      (addVideoToPlaylist objectIdDb "65f0000000000000000000c2"
        ⟨some "65f0000000000000000000b1", some "65f0000000000000000000a1"⟩).2
      ≠ .error (.apiError 403 message) := by
  refine ⟨rfl, by decide, rfl, rfl, ?_⟩
  intro message h
  have h500 :
      (addVideoToPlaylist objectIdDb "65f0000000000000000000c2"
        ⟨some "65f0000000000000000000b1", some "65f0000000000000000000a1"⟩).2
      = .error (.apiError 500 "Failed to add video to playlist") := rfl
  rw [h500] at h
  injection h with h
  injection h with h
  exact absurd h (by decide)

/-- C3, amended: for an existing playlist `p` (the stored document with that id, ids
being unique in the collection), an existing video `v` and a requester who is not the
owner of `p`, `addVideoToPlaylist` throws `ApiError(500, "Failed to add video to
playlist")` and leaves the state as it was, so the videos of `p` are the same before and
after the call. -/
theorem addVideoToPlaylist_not_owner (db : Db) (user p v : String) (video : Video)
    (pl : Playlist) (hp : p ≠ "") (hv : v ≠ "")
    (hvideo : Video.findById db.videos v = some video)
    (hpl : Playlist.findOne db.playlists (hasId p) = some pl)
    (hunique : (db.playlists.map (fun x => x._id)).Nodup)
    (hnotOwner : pl.owner ≠ user) :
    addVideoToPlaylist db user ⟨some p, some v⟩
        = (db, .error (.apiError 500 "Failed to add video to playlist")) ∧
    (Playlist.findOne (addVideoToPlaylist db user ⟨some p, some v⟩).1.playlists
        (hasId p)).map (fun x => x.videos) = some pl.videos := by
  unfold Playlist.findOne at hpl
  have hmem : pl ∈ db.playlists := List.mem_of_find?_eq_some hpl
  have hid : pl._id = p := by
    have := List.find?_some hpl
    simpa [hasId] using this
  have hnone : db.playlists.find? (ownedBy p user) = none := by
    apply List.find?_eq_none.mpr
    intro x hx hown
    simp only [ownedBy, Bool.and_eq_true, beq_iff_eq] at hown
    have hsame : x = pl :=
      List.inj_on_of_nodup_map hunique hx hmem (by rw [hown.1, hid])
    exact hnotOwner (hsame ▸ hown.2)
  have hupd := findOneAndUpdate_of_find_none (ownedBy p user) (addToSet v) db.playlists hnone
  have hresult : addVideoToPlaylist db user ⟨some p, some v⟩
      = (db, .error (.apiError 500 "Failed to add video to playlist")) := by
    unfold addVideoToPlaylist
    simp only [falsy_some_eq_false hp, falsy_some_eq_false hv, Bool.or_self,
      Bool.false_eq_true, if_false, Option.getD_some, hvideo, hupd]
  refine ⟨hresult, ?_⟩
  rw [hresult]
  simp only [Playlist.findOne, hpl, Option.map_some']

theorem addVideoToPlaylist_not_owner_witness :
    addVideoToPlaylist objectIdDb "65f0000000000000000000c2"
        ⟨some "65f0000000000000000000b1", some "65f0000000000000000000a1"⟩
      = (objectIdDb, .error (.apiError 500 "Failed to add video to playlist")) ∧
    (Playlist.findOne
        (addVideoToPlaylist objectIdDb "65f0000000000000000000c2"
          ⟨some "65f0000000000000000000b1", some "65f0000000000000000000a1"⟩).1.playlists
        (hasId "65f0000000000000000000b1")).map (fun x => x.videos)
      = some ["65f0000000000000000000a2"] :=
  addVideoToPlaylist_not_owner objectIdDb "65f0000000000000000000c2"
    "65f0000000000000000000b1" "65f0000000000000000000a1"
    ⟨"65f0000000000000000000a1", "t", "d", "cdn/v1", "cdn/t1", 3,
      "65f0000000000000000000c1"⟩
    ⟨"65f0000000000000000000b1", "Favorites", "mine", ["65f0000000000000000000a2"],
      "65f0000000000000000000c1"⟩
    (by decide) (by decide) rfl rfl (by decide) (by decide)

/-! ## Playlist creation -/

theorem createPlaylist_name_required (db : Db) (newId user : String) (body : PlaylistBody)
    (h : body.name = none ∨ ∃ name, body.name = some name ∧ jsTrim name = "") :
    createPlaylist db newId user body
        = (db, .error (.apiError 400 "Playlist name is required")) := by
  unfold createPlaylist
  rcases h with h | ⟨name, h, hblank⟩
  · simp [h]
  · simp [h, hblank]

/-- C4 fails as stated: `u1` already has a playlist named `Favorites`; creating another
one throws the store's duplicate-key error as it is, which is no `ApiError` and carries
no status 409, and nothing is created. -/
theorem createPlaylist_duplicate_raw :
    (∃ pl ∈ sampleDb.playlists, pl.owner = "u1" ∧ pl.name = "Favorites") ∧
    createPlaylist sampleDb "p2" "u1" ⟨some "Favorites", some "again"⟩
        = (sampleDb, .error (.duplicateKey "owner_1_name_1")) ∧
    ∀ message, (createPlaylist sampleDb "p2" "u1" ⟨some "Favorites", some "again"⟩).2
        ≠ .error (.apiError 409 message) := by
  refine ⟨⟨⟨"p1", "Favorites", "mine", ["v2"], "u1"⟩, by simp [sampleDb], rfl, rfl⟩,
    rfl, ?_⟩
  intro message h
  have hraw : (createPlaylist sampleDb "p2" "u1" ⟨some "Favorites", some "again"⟩).2
      = .error (.duplicateKey "owner_1_name_1") := rfl
  rw [hraw] at h
  injection h with h
  cases h

/-- C4, amended: for a name and a description that are non-empty after trimming, if the
owner `u` already has a playlist of that (trimmed) name then `createPlaylist` throws the
store's duplicate-key error untranslated and creates nothing, while for an owner `u2`
without a playlist of that name it answers with status 200 and appends the new playlist,
stored with trimmed name and description and no videos. -/
theorem createPlaylist_unique_per_owner (db : Db) (newId u u2 n d : String)
    (hn : jsTrim n ≠ "") (hd : jsTrim d ≠ "")
    (htaken : ∃ pl ∈ db.playlists, pl.owner = u ∧ pl.name = jsTrim n)
    (hfree : ∀ pl ∈ db.playlists, pl.owner = u2 → pl.name ≠ jsTrim n) :
    createPlaylist db newId u ⟨some n, some d⟩
        = (db, .error (.duplicateKey "owner_1_name_1")) ∧
    createPlaylist db newId u2 ⟨some n, some d⟩
        = ({ db with playlists := db.playlists ++ [⟨newId, jsTrim n, jsTrim d, [], u2⟩] },
            .ok ⟨200, ⟨newId, jsTrim n, jsTrim d, [], u2⟩,
              "Playlist created successfully"⟩) := by
  have hn0 : n ≠ "" := ne_empty_of_jsTrim_ne_empty hn
  have hany : db.playlists.any (fun p => p.owner == u && p.name == jsTrim n) = true := by
    obtain ⟨pl, hmem, ho, hname⟩ := htaken
    exact List.any_eq_true.mpr ⟨pl, hmem, by simp [ho, hname]⟩
  have hnone : db.playlists.any (fun p => p.owner == u2 && p.name == jsTrim n) = false := by
    apply Bool.eq_false_iff.mpr
    intro h
    obtain ⟨pl, hmem, hpl⟩ := List.any_eq_true.mp h
    simp only [Bool.and_eq_true, beq_iff_eq] at hpl
    exact hfree pl hmem hpl.1 hpl.2
  constructor
  · simp [createPlaylist, Playlist.create, hn0, hn, hd, jsTrim_jsTrim, hany]
  · simp [createPlaylist, Playlist.create, hn0, hn, hd, jsTrim_jsTrim, hnone]

theorem createPlaylist_unique_per_owner_witness :
    createPlaylist sampleDb "p2" "u1" ⟨some " Favorites ", some " again "⟩
        = (sampleDb, .error (.duplicateKey "owner_1_name_1")) ∧
    createPlaylist sampleDb "p2" "u2" ⟨some " Favorites ", some " again "⟩
        = ({ sampleDb with playlists :=
              sampleDb.playlists ++
                [⟨"p2", jsTrim " Favorites ", jsTrim " again ", [], "u2"⟩] },
            .ok ⟨200, ⟨"p2", jsTrim " Favorites ", jsTrim " again ", [], "u2"⟩,
              "Playlist created successfully"⟩) :=
  createPlaylist_unique_per_owner sampleDb "p2" "u1" "u2" " Favorites " " again "
    (by decide) (by decide)
    ⟨⟨"p1", "Favorites", "mine", ["v2"], "u1"⟩, by simp [sampleDb], rfl, rfl⟩
    (by
      intro pl hmem ho
      have : pl = ⟨"p1", "Favorites", "mine", ["v2"], "u1"⟩ := by simpa [sampleDb] using hmem
      subst this
      exact absurd ho (by decide))

/-- C5, at the failing inputs: a request with a valid name and no description throws a
`TypeError` and creates nothing, and one whose description is blank is refused by the
schema's `required` validator, so no playlist with an empty description is ever stored. -/
theorem createPlaylist_description_not_optional :
    createPlaylist sampleDb "p2" "u1" ⟨some "Road trip", none⟩
        = (sampleDb, .error (.typeError "description.trim")) ∧
    createPlaylist sampleDb "p2" "u1" ⟨some "Road trip", some "  "⟩
        = (sampleDb, .error (.validationError "description")) :=
  ⟨rfl, rfl⟩

/-! ## Lemmas on the video collection -/

theorem getVideoByIdUtil_ok {videos : List Video} {videoId : Option String} {video : Video}
    (h : getVideoByIdUtil videos videoId = .ok video) :
    Video.findById videos (videoId.getD "") = some video := by
  unfold getVideoByIdUtil at h
  split at h
  · cases h
  · split at h
    · cases h
    · rename_i v hv
      injection h with h
      rw [hv, h]

theorem findById_id {videos : List Video} {id : String} {video : Video}
    (h : Video.findById videos id = some video) : video._id = id := by
  have := List.find?_some h
  simpa using this

theorem findByIdAndDelete_of_findById (videos : List Video) (id : String) (video : Video)
    (h : Video.findById videos id = some video) :
    (Video.findByIdAndDelete id videos).2 = some video := by
  unfold Video.findById at h
  induction videos with
  | nil => simp at h
  | cons v rest ih =>
    by_cases hv : (v._id == id) = true
    · have : v = video := by simpa [List.find?, hv] using h
      subst this
      simp [Video.findByIdAndDelete, hv]
    · have hrest : rest.find? (fun v => v._id == id) = some video := by
        simpa [List.find?, hv] using h
      simp [Video.findByIdAndDelete, hv, ih hrest]

/-! ## Media asset lifecycle -/

/-- C6 fails as stated: the video upload goes through and the thumbnail upload fails;
afterwards the asset store still holds the uploaded video asset and no deletion was
issued, while no record was created and the caller gets status 500. -/
theorem publishVideo_leaves_uploaded_video :
    sampleCloud.uploadOnCloudinary "v.mp4" = .value ⟨"cdn/v", 12⟩ ∧
    sampleCloud.uploadOnCloudinary "t.png" = .null ∧
    publishVideo sampleCloud sampleWorld "v2" samplePublish
        = ({ videos := sampleWorld.videos,
             assets := ["cdn/v1", "cdn/t1", "cdn/v"],
             trace := [.upload "v.mp4", .upload "t.png"] },
            .error (.apiError 500 "Error occurs while uploading thumbnail on cloud ")) ∧
    "cdn/v" ∈ (publishVideo sampleCloud sampleWorld "v2" samplePublish).1.assets ∧
    Effect.destroy "cdn/v" ∉ (publishVideo sampleCloud sampleWorld "v2" samplePublish).1.trace :=
  ⟨rfl, rfl, rfl, by decide, by decide⟩

/-- C6, amended: for every `publishVideo` call with title and description non-empty
after trimming and both files present, in which the video upload goes through and the
thumbnail upload fails, no Video record is created and the caller receives an error
(status 500 when the helper reports the failure through its result, the rejection itself
otherwise); the two uploads are the only calls issued, so the uploaded video asset stays
in the asset store. -/
theorem publishVideo_thumbnail_upload_fails (cloud : Cloudinary) (w : World)
    (newId user title description videoPath thumbnailPath : String)
    (moreVideos moreThumbnails : List UploadedFile) (videoFile : Asset)
    (htitle : jsTrim title ≠ "") (hdescription : jsTrim description ≠ "")
    (hvideoPath : videoPath ≠ "") (hthumbnailPath : thumbnailPath ≠ "")
    (hvideo : cloud.uploadOnCloudinary videoPath = .value videoFile)
    (hthumbnail : ∀ a, cloud.uploadOnCloudinary thumbnailPath ≠ .value a) :
    publishVideo cloud w newId
        ⟨some title, some description,
          some ⟨some (⟨videoPath⟩ :: moreVideos), some (⟨thumbnailPath⟩ :: moreThumbnails)⟩,
          user⟩
      = ({ videos := w.videos,
           assets := w.assets ++ [videoFile.secure_url],
           trace := w.trace ++ [.upload videoPath, .upload thumbnailPath] },
          .error
            (match cloud.uploadOnCloudinary thumbnailPath with
             | .rejects e => e
             | _ => .apiError 500 "Error occurs while uploading thumbnail on cloud ")) := by
  cases hth : cloud.uploadOnCloudinary thumbnailPath with
  | value a => exact absurd hth (hthumbnail a)
  | null =>
    simp [publishVideo, World.upload, firstPath, falsy, htitle, hdescription, hvideoPath,
      hthumbnailPath, hvideo, hth]
  | rejects e =>
    simp [publishVideo, World.upload, firstPath, falsy, htitle, hdescription, hvideoPath,
      hthumbnailPath, hvideo, hth]

theorem publishVideo_thumbnail_upload_fails_witness :
    publishVideo sampleCloud sampleWorld "v2"
        ⟨some "Title", some "About", some ⟨some [⟨"v.mp4"⟩], some [⟨"t.png"⟩]⟩, "u1"⟩
      = ({ videos := sampleWorld.videos,
           assets := sampleWorld.assets ++ ["cdn/v"],
           trace := sampleWorld.trace ++ [.upload "v.mp4", .upload "t.png"] },
          .error
            (match sampleCloud.uploadOnCloudinary "t.png" with
             | .rejects e => e
             | _ => .apiError 500 "Error occurs while uploading thumbnail on cloud ")) :=
  publishVideo_thumbnail_upload_fails sampleCloud sampleWorld "v2" "u1" "Title" "About"
    "v.mp4" "t.png" [] [] ⟨"cdn/v", 12⟩ (by decide) (by decide) (by decide) (by decide) rfl
    (by intro a h; cases h)

/-- C7 fails as stated: in a successful thumbnail replacement the old asset `cdn/t1` is
deleted before the record update is issued; and when the upload of the new thumbnail
fails the old asset is deleted all the same, the update is never issued, and the record
keeps pointing at an asset the store no longer holds. -/
theorem updateVideo_deletes_old_thumbnail_first :
    (updateVideo sampleCloud sampleWorld ⟨some "v1", none, none, some ⟨"new.png"⟩⟩).1.trace
        = [.upload "new.png", .destroy "cdn/t1",
            .updateRecord "v1" ⟨"t", "d", some "cdn/new"⟩] ∧
    deleteFollowsUpdate "cdn/t1"
        (updateVideo sampleCloud sampleWorld
          ⟨some "v1", none, none, some ⟨"new.png"⟩⟩).1.trace = false ∧
    updateVideo sampleCloud sampleWorld ⟨some "v1", none, none, some ⟨"lost.png"⟩⟩
        = ({ videos := sampleWorld.videos,
             assets := ["cdn/v1"],
             trace := [.upload "lost.png", .destroy "cdn/t1"] },
            .error (.typeError "thumbnail.secure_url")) ∧
    (sampleWorld.videos.map (fun v => v.thumbnail)) = ["cdn/t1"] :=
  ⟨rfl, rfl, rfl, rfl⟩

/-- C7, amended: in `updateVideo` with a new thumbnail file (the request passing
validation, the upload not rejecting) the calls issued are, in this order, the upload of
the new file, the deletion of the old thumbnail asset, and then, only when the upload
resolved with an asset and the deletion did not reject, the record update; the old asset
is therefore deleted before the record update is attempted. -/
theorem updateVideo_thumbnail_order (cloud : Cloudinary) (w : World) (req : UpdateRequest)
    (video : Video) (path : String)
    (hvideo : getVideoByIdUtil w.videos req.videoId = .ok video)
    (hfile : newThumbnailPath req.file = some path)
    (htitle : jsTrim (req.title.getD video.title) ≠ "")
    (hdescription : jsTrim (req.description.getD video.description) ≠ "")
    (hupload : ∀ e, cloud.uploadOnCloudinary path ≠ .rejects e) :
    (updateVideo cloud w req).1.trace
      = w.trace ++ Effect.upload path :: Effect.destroy video.thumbnail ::
          (match cloud.uploadOnCloudinary path, cloud.deleteFromCloudinary video.thumbnail with
           | _, .rejects _ => []
           | .value a, _ =>
             [.updateRecord video._id
                ⟨jsTrim (req.title.getD video.title),
                 jsTrim (req.description.getD video.description), some a.secure_url⟩]
           | _, _ => []) ∧
    deleteFollowsUpdate video.thumbnail
      (Effect.upload path :: Effect.destroy video.thumbnail ::
          (match cloud.uploadOnCloudinary path, cloud.deleteFromCloudinary video.thumbnail with
           | _, .rejects _ => []
           | .value a, _ =>
             [.updateRecord video._id
                ⟨jsTrim (req.title.getD video.title),
                 jsTrim (req.description.getD video.description), some a.secure_url⟩]
           | _, _ => [])) = false := by
  refine ⟨?_, by simp [deleteFollowsUpdate]⟩
  cases hup : cloud.uploadOnCloudinary path with
  | rejects e => exact absurd hup (hupload e)
  | null =>
    cases hdel : cloud.deleteFromCloudinary video.thumbnail <;>
      simp [updateVideo, updateThumbnail, World.upload, World.destroy,
        ThumbnailValue.secure_url, hvideo, hfile, htitle, hdescription, hup, hdel]
  | value a =>
    cases hdel : cloud.deleteFromCloudinary video.thumbnail <;>
      (simp [updateVideo, updateThumbnail, World.upload, World.destroy,
        ThumbnailValue.secure_url, hvideo, hfile, htitle, hdescription, hup, hdel] <;>
        (split <;> rfl))


theorem updateVideo_thumbnail_order_witness :
    (updateVideo sampleCloud sampleWorld ⟨some "v1", none, none, some ⟨"new.png"⟩⟩).1.trace
      = sampleWorld.trace ++ Effect.upload "new.png" :: Effect.destroy "cdn/t1" ::
          (match sampleCloud.uploadOnCloudinary "new.png",
              sampleCloud.deleteFromCloudinary "cdn/t1" with
           | _, .rejects _ => []
           | .value a, _ =>
             [.updateRecord "v1" ⟨jsTrim "t", jsTrim "d", some a.secure_url⟩]
           | _, _ => []) ∧
    deleteFollowsUpdate "cdn/t1"
      (Effect.upload "new.png" :: Effect.destroy "cdn/t1" ::
          (match sampleCloud.uploadOnCloudinary "new.png",
              sampleCloud.deleteFromCloudinary "cdn/t1" with
           | _, .rejects _ => []
           | .value a, _ =>
             [.updateRecord "v1" ⟨jsTrim "t", jsTrim "d", some a.secure_url⟩]
           | _, _ => [])) = false :=
  updateVideo_thumbnail_order sampleCloud sampleWorld
    ⟨some "v1", none, none, some ⟨"new.png"⟩⟩ ⟨"v1", "t", "d", "cdn/v1", "cdn/t1", 3, "u1"⟩
    "new.png" rfl rfl (by decide) (by decide) (by intro e h; cases h)

/-- C8 fails as stated: both asset deletions fail, reporting it through their result;
`deleteVideo` goes on, deletes the record and answers with status 200, although the asset
store still holds both assets. -/
theorem deleteVideo_ignores_failed_deletion :
    failingDeleteCloud.deleteFromCloudinary "cdn/v1" = .null ∧
    failingDeleteCloud.deleteFromCloudinary "cdn/t1" = .null ∧
    deleteVideo failingDeleteCloud sampleWorld (some "v1")
        = ({ videos := [],
             assets := ["cdn/v1", "cdn/t1"],
             trace := [.destroy "cdn/v1", .destroy "cdn/t1", .deleteRecord "v1"] },
            .ok ⟨200, ⟨"v1", "t", "d", "cdn/v1", "cdn/t1", 3, "u1"⟩,
              "video deleted successfully"⟩) :=
  ⟨rfl, rfl, rfl⟩

/-- C8, amended: `deleteVideo` issues its calls in the order delete video asset, delete
thumbnail asset, delete record, stopping at the first asset deletion that rejects; in
every execution where an asset deletion rejects the record is not deleted, and in every
execution where none rejects (a failure reported only through the result included) the
record is deleted and the answer is status 200. -/
theorem deleteVideo_order (cloud : Cloudinary) (w : World) (videoId : Option String)
    (video : Video) (hvideo : getVideoByIdUtil w.videos videoId = .ok video) :
    (deleteVideo cloud w videoId).1.trace
      = w.trace ++
          (match cloud.deleteFromCloudinary video.videoFile with
           | .rejects _ => [.destroy video.videoFile]
           | _ =>
             match cloud.deleteFromCloudinary video.thumbnail with
             | .rejects _ => [.destroy video.videoFile, .destroy video.thumbnail]
             | _ =>
               [.destroy video.videoFile, .destroy video.thumbnail,
                 .deleteRecord video._id]) ∧
    (((∃ e, cloud.deleteFromCloudinary video.videoFile = .rejects e)
          ∨ (∃ e, cloud.deleteFromCloudinary video.thumbnail = .rejects e)) →
      (deleteVideo cloud w videoId).1.videos = w.videos
        ∧ ∀ r, (deleteVideo cloud w videoId).2 ≠ .ok r) ∧
    (((∀ e, cloud.deleteFromCloudinary video.videoFile ≠ .rejects e)
          ∧ (∀ e, cloud.deleteFromCloudinary video.thumbnail ≠ .rejects e)) →
      (deleteVideo cloud w videoId).1.videos = (Video.findByIdAndDelete video._id w.videos).1
        ∧ (deleteVideo cloud w videoId).2
            = .ok ⟨200, video, "video deleted successfully"⟩) := by
  have hfind := getVideoByIdUtil_ok hvideo
  have hdel := findByIdAndDelete_of_findById w.videos video._id video
    (by rw [findById_id hfind]; exact hfind)
  generalize hr : Video.findByIdAndDelete video._id w.videos = r at hdel
  obtain ⟨vs, o⟩ := r
  simp only at hdel
  subst hdel
  cases h1 : cloud.deleteFromCloudinary video.videoFile <;>
    cases h2 : cloud.deleteFromCloudinary video.thumbnail <;>
      simp [deleteVideo, World.destroy, hvideo, h1, h2, hr]


theorem deleteVideo_order_witness :
    (deleteVideo rejectingDeleteCloud sampleWorld (some "v1")).1.trace
        = [.destroy "cdn/v1", .destroy "cdn/t1"] ∧
    (deleteVideo rejectingDeleteCloud sampleWorld (some "v1")).1.videos = sampleWorld.videos ∧
    ∀ r, (deleteVideo rejectingDeleteCloud sampleWorld (some "v1")).2 ≠ .ok r :=
  ⟨(deleteVideo_order rejectingDeleteCloud sampleWorld (some "v1")
      ⟨"v1", "t", "d", "cdn/v1", "cdn/t1", 3, "u1"⟩ rfl).1,
    (deleteVideo_order rejectingDeleteCloud sampleWorld (some "v1")
      ⟨"v1", "t", "d", "cdn/v1", "cdn/t1", 3, "u1"⟩ rfl).2.1
      (Or.inr ⟨.rejected "asset store unavailable", rfl⟩)⟩

/-! ## Catalog query -/

/-- C9, at the failing inputs: with `userId` present, an unrecognised `sortBy` (`name`)
and an unrecognised `sortType` (`2`) are each answered with status 404, where the claim
and the check on `isPublished` next to them say 400. -/
theorem getAllVideos_invalid_sort_status :
    sortingByOf { sampleQuery with sortBy := some "name" } = "name" ∧
    getAllVideos sampleHost (fun _ => Paginated.results ())
        { sampleQuery with sortBy := some "name" }
      = .error (.apiError 404 "Invalid sortBy") ∧
    sortingTypeOf sampleHost { sampleQuery with sortType := some "2" } = some 2 ∧
    getAllVideos sampleHost (fun _ => Paginated.results ())
        { sampleQuery with sortType := some "2" }
      = .error (.apiError 404 "Invalid sorting Type") :=
  ⟨rfl, rfl, rfl, rfl⟩

/-- The validation block of `getAllVideos`, case by case: a query without `userId` is
rejected with `ApiError` status
404 ("userId is necessary"); with `userId` present it rejects an unrecognised `sortBy`
(lower-cased, trimmed, not one of date, views, title, duration) with status 404
("Invalid sortBy"), otherwise a `sortType` whose number is neither 1 nor -1 with status
404 ("Invalid sorting Type"), otherwise a given `isPublished` that (lower-cased, trimmed)
is not one of true, false, all with status 400 ("Invalid published Status"). -/
theorem getAllVideos_validation {ρ : Type} (host : Host)
    (paginate : PaginateCall → Paginated ρ) (q : VideoQuery) :
    (falsy q.userId = true →
      getAllVideos host paginate q = .error (.apiError 404 "userId is necessary")) ∧
    (falsy q.userId = false →
      sortingByOf q ∉ ["date", "views", "title", "duration"] →
      getAllVideos host paginate q = .error (.apiError 404 "Invalid sortBy")) ∧
    (falsy q.userId = false →
      sortingByOf q ∈ ["date", "views", "title", "duration"] →
      sortingTypeOf host q ≠ some 1 → sortingTypeOf host q ≠ some (-1) →
      getAllVideos host paginate q = .error (.apiError 404 "Invalid sorting Type")) ∧
    (∀ isPublished, falsy q.userId = false →
      sortingByOf q ∈ ["date", "views", "title", "duration"] →
      (sortingTypeOf host q = some 1 ∨ sortingTypeOf host q = some (-1)) →
      q.isPublished = some isPublished →
      jsTrim (jsToLowerCase isPublished) ∉ ["true", "false", "all"] →
      getAllVideos host paginate q = .error (.apiError 400 "Invalid published Status")) := by
  refine ⟨?_, ?_, ?_, ?_⟩
  · intro hu
    simp [getAllVideos, getAllVideosPlan, hu]
  · intro hu hs
    simp only [List.mem_cons, List.mem_singleton, List.not_mem_nil, or_false, not_or] at hs
    simp [getAllVideos, getAllVideosPlan, hu, hs]
  · intro hu hs h1 h2
    have hs1 : (sortingByOf q != "date" && sortingByOf q != "views"
        && sortingByOf q != "title" && sortingByOf q != "duration") = false := by
      simp only [List.mem_cons, List.mem_singleton, List.not_mem_nil, or_false] at hs
      rcases hs with h | h | h | h <;> simp [h]
    cases ht : sortingTypeOf host q with
    | none => simp [getAllVideos, getAllVideosPlan, hu, hs1, ht]
    | some t =>
      have ht1 : t ≠ 1 := fun e => h1 (by rw [ht, e])
      have ht2 : t ≠ -1 := fun e => h2 (by rw [ht, e])
      simp [getAllVideos, getAllVideosPlan, hu, hs1, ht, ht1, ht2]
  · intro isPublished hu hs ht hq hp
    have hs1 : (sortingByOf q != "date" && sortingByOf q != "views"
        && sortingByOf q != "title" && sortingByOf q != "duration") = false := by
      simp only [List.mem_cons, List.mem_singleton, List.not_mem_nil, or_false] at hs
      rcases hs with h | h | h | h <;> simp [h]
    simp only [List.mem_cons, List.mem_singleton, List.not_mem_nil, or_false, not_or] at hp
    rcases ht with ht | ht <;>
      simp [getAllVideos, getAllVideosPlan, hu, hs1, ht, hq, hp]

theorem getAllVideos_validation_witness :
    getAllVideos sampleHost (fun _ => Paginated.results ())
        { sampleQuery with userId := none }
      = .error (.apiError 404 "userId is necessary") ∧
    getAllVideos sampleHost (fun _ => Paginated.results ())
        { sampleQuery with isPublished := some "maybe" }
      = .error (.apiError 400 "Invalid published Status") :=
  ⟨(getAllVideos_validation sampleHost (fun _ => Paginated.results ())
      { sampleQuery with userId := none }).1 rfl,
    (getAllVideos_validation sampleHost (fun _ => Paginated.results ())
      { sampleQuery with isPublished := some "maybe" }).2.2.2 "maybe" rfl (by decide)
      (Or.inr rfl) rfl (by decide)⟩

/-- C10 fails as stated: for the valid paging query by views descending, the sort
specification handed to the paginator has the single key `views`; no tie-breaker on the
id follows it. -/
theorem getAllVideos_sort_without_tie_breaker :
    getAllVideosPlan sampleHost sampleQuery
      = .ok
          { myMatch :=
              [("owner", .objectId "65f000000000000000000001"), ("isPublished", .bool true)],
            options := { page := .str "2", limit := .str "5", sort := [("views", -1)] } } ∧
    ([("views", -1)] : List (String × Int)) ≠ [("views", -1), ("_id", 1)] ∧
    (("_id", 1) : String × Int) ∉ ([("views", -1)] : List (String × Int)) :=
  ⟨rfl, by decide, by decide⟩

/-- C10, amended: for every valid query, the sort specification that `getAllVideos`
passes to the paginator consists of exactly one key, the canonical sort field (`createdAt`
for `date`, else the field itself) in the requested direction (1 or -1); it contains no
key on the id, so the relative order of videos with equal primary sort values is left to
the paginator. -/
theorem getAllVideos_sort_single_key (host : Host) (q : VideoQuery) (call : PaginateCall)
    (hplan : getAllVideosPlan host q = .ok call) :
    (∃ direction : Int,
      sortingTypeOf host q = some direction ∧ (direction = 1 ∨ direction = -1) ∧
      call.options.sort
        = [(if sortingByOf q = "date" then "createdAt" else sortingByOf q, direction)]) ∧
    sortingByOf q ∈ ["date", "views", "title", "duration"] ∧
    ∀ key ∈ call.options.sort, key.1 ≠ "_id" := by
  unfold getAllVideosPlan at hplan
  split at hplan
  · cases hplan
  · simp only at hplan
    split at hplan
    · cases hplan
    · rename_i hsort
      have hfield : sortingByOf q ∈ ["date", "views", "title", "duration"] := by
        simp only [Bool.and_eq_true, bne_iff_ne, ne_eq, not_and, Decidable.not_not] at hsort
        simp only [List.mem_cons, List.mem_singleton, List.not_mem_nil, or_false]
        by_cases h1 : sortingByOf q = "date"
        · exact Or.inl h1
        · by_cases h2 : sortingByOf q = "views"
          · exact Or.inr (Or.inl h2)
          · by_cases h3 : sortingByOf q = "title"
            · exact Or.inr (Or.inr (Or.inl h3))
            · exact Or.inr (Or.inr (Or.inr (hsort ⟨⟨h1, h2⟩, h3⟩)))
      split at hplan
      · cases hplan
      · rename_i direction hdir
        split at hplan
        · cases hplan
        · rename_i hrange
          have hrange1 : direction = 1 ∨ direction = -1 := by
            simp only [Bool.and_eq_true, bne_iff_ne, ne_eq, not_and, Decidable.not_not]
              at hrange
            by_cases h1 : direction = 1
            · exact Or.inl h1
            · exact Or.inr (hrange h1)
          split at hplan
          · cases hplan
          · split at hplan
            · cases hplan
            · split at hplan
              · cases hplan
              · injection hplan with hplan
                subst hplan
                refine ⟨⟨direction, hdir, hrange1, ?_⟩, hfield, ?_⟩
                · by_cases hd : sortingByOf q = "date" <;> simp [hd]
                · intro key hkey
                  simp only [List.mem_singleton] at hkey
                  subst hkey
                  simp only [List.mem_cons, List.mem_singleton, List.not_mem_nil, or_false]
                    at hfield
                  rcases hfield with h | h | h | h <;> simp [h]

theorem getAllVideos_sort_single_key_witness :
    (∃ direction : Int,
      sortingTypeOf sampleHost sampleQuery = some direction ∧
      (direction = 1 ∨ direction = -1) ∧
      ([("views", -1)] : List (String × Int))
        = [(if sortingByOf sampleQuery = "date" then "createdAt"
            else sortingByOf sampleQuery, direction)]) ∧
    sortingByOf sampleQuery ∈ ["date", "views", "title", "duration"] ∧
    ∀ key ∈ ([("views", -1)] : List (String × Int)), key.1 ≠ "_id" :=
  getAllVideos_sort_single_key sampleHost sampleQuery
    { myMatch :=
        [("owner", .objectId "65f000000000000000000001"), ("isPublished", .bool true)],
      options := { page := .str "2", limit := .str "5", sort := [("views", -1)] } }
    rfl

/-! ## Match predicate and canonical sort field -/

/-- C11: for every query that passes the validation of `getAllVideos` (a non-empty
`userId` from which an object id can be built, a recognised `sortBy`, a `sortType` whose
number is 1 or -1, a given `isPublished` that, lower-cased and trimmed, is one of true,
false, all), the call handed to the paginator is built, its match predicate holds the
owner made from `userId`, followed by an equality on `isPublished` exactly when the
parameter is not `all` (with `true` for true and `false` for false) and by no other key,
and the sort field is `createdAt` for date and the field itself for views, title and
duration. -/
theorem getAllVideos_match_predicate (host : Host) (q : VideoQuery)
    (userId isPublished owner : String) (direction : Int)
    (huser : q.userId = some userId) (hnonempty : userId ≠ "")
    (hsort : sortingByOf q ∈ ["date", "views", "title", "duration"])
    (hdirection : sortingTypeOf host q = some direction)
    (hrange : direction = 1 ∨ direction = -1)
    (hpublished : q.isPublished = some isPublished)
    (hstatus : jsTrim (jsToLowerCase isPublished) ∈ ["true", "false", "all"])
    (howner : host.objectId userId = some owner) :
    getAllVideosPlan host q
      = .ok
          { myMatch :=
              if jsTrim (jsToLowerCase isPublished) = "all" then
                [("owner", .objectId owner)]
              else if jsTrim (jsToLowerCase isPublished) = "true" then
                [("owner", .objectId owner), ("isPublished", .bool true)]
              else
                [("owner", .objectId owner), ("isPublished", .bool false)],
            options :=
              { page := (q.page.map Param.str).getD (.num 1),
                limit := (q.limit.map Param.str).getD (.num 10),
                sort :=
                  [(if sortingByOf q = "date" then "createdAt" else sortingByOf q,
                    direction)] } } ∧
    (jsTrim (jsToLowerCase isPublished) ≠ "all" →
      jsTrim (jsToLowerCase isPublished) ≠ "true" →
      jsTrim (jsToLowerCase isPublished) = "false") := by
  have hs1 : (sortingByOf q != "date" && sortingByOf q != "views"
      && sortingByOf q != "title" && sortingByOf q != "duration") = false := by
    simp only [List.mem_cons, List.mem_singleton, List.not_mem_nil, or_false] at hsort
    rcases hsort with h | h | h | h <;> simp [h]
  have hd1 : (direction != 1 && direction != -1) = false := by
    rcases hrange with h | h <;> simp [h]
  simp only [List.mem_cons, List.mem_singleton, List.not_mem_nil, or_false] at hstatus
  have hp1 : (jsTrim (jsToLowerCase isPublished) != "true"
      && jsTrim (jsToLowerCase isPublished) != "false"
      && jsTrim (jsToLowerCase isPublished) != "all") = false := by
    rcases hstatus with h | h | h <;> simp [h]
  constructor
  · unfold getAllVideosPlan
    simp only [huser, falsy_some_eq_false hnonempty, Bool.false_eq_true, if_false, hs1,
      hdirection, hd1, hpublished, hp1, Option.getD_some, howner]
    rcases hstatus with h | h | h <;> simp [h]
  · intro h1 h2
    rcases hstatus with h | h | h
    · exact absurd h h2
    · exact h
    · exact absurd h h1

theorem getAllVideos_match_predicate_witness :
    getAllVideosPlan sampleHost sampleQuery
      = .ok
          { myMatch :=
              if jsTrim (jsToLowerCase "true") = "all" then
                [("owner", .objectId "65f000000000000000000001")]
              else if jsTrim (jsToLowerCase "true") = "true" then
                [("owner", .objectId "65f000000000000000000001"),
                  ("isPublished", .bool true)]
              else
                [("owner", .objectId "65f000000000000000000001"),
                  ("isPublished", .bool false)],
            options :=
              { page := (sampleQuery.page.map Param.str).getD (.num 1),
                limit := (sampleQuery.limit.map Param.str).getD (.num 10),
                sort :=
                  [(if sortingByOf sampleQuery = "date" then "createdAt"
                    else sortingByOf sampleQuery, -1)] } } ∧
    (jsTrim (jsToLowerCase "true") ≠ "all" →
      jsTrim (jsToLowerCase "true") ≠ "true" →
      jsTrim (jsToLowerCase "true") = "false") :=
  getAllVideos_match_predicate sampleHost sampleQuery "65f000000000000000000001" "true"
    "65f000000000000000000001" (-1) rfl (by decide) (by decide) rfl (Or.inr rfl) rfl
    (by decide) rfl

theorem getAllVideos_absent_isPublished :
    getAllVideosPlan sampleHost { sampleQuery with isPublished := none }
      = .error (.typeError "isPublished.toLowerCase") :=
  rfl

/-! ## Update without a new thumbnail -/

/-- C12, at the failing input: a stored video whose thumbnail is `cdn/t1` gets a new
title and no file; the update is accepted, and the patch written to the record carries
`undefined` as `thumbnail`, not the existing reference `cdn/t1`.  The stored record keeps
its thumbnail only because the persistence layer drops keys whose value is `undefined`. -/
theorem updateVideo_patch_thumbnail_undefined :
    Video.findById sampleWorld.videos "v1"
        = some ⟨"v1", "t", "d", "cdn/v1", "cdn/t1", 3, "u1"⟩ ∧
    updateVideo sampleCloud sampleWorld ⟨some "v1", some "t2", none, none⟩
        = ({ videos := [⟨"v1", "t2", "d", "cdn/v1", "cdn/t1", 3, "u1"⟩],
             assets := ["cdn/v1", "cdn/t1"],
             trace := [.updateRecord "v1" ⟨"t2", "d", none⟩] },
            .ok ⟨200, ⟨"v1", "t2", "d", "cdn/v1", "cdn/t1", 3, "u1"⟩,
              "video updated successfully"⟩) ∧
    (⟨"t2", "d", none⟩ : VideoPatch).thumbnail ≠ some "cdn/t1" :=
  ⟨rfl, rfl, by decide⟩

/-- Every accepted `updateVideo` request without a file issues one call, the record
update, and its patch carries `undefined` as `thumbnail`. -/
theorem updateVideo_without_file_patch (cloud : Cloudinary) (w : World)
    (req : UpdateRequest) (video : Video)
    (hvideo : getVideoByIdUtil w.videos req.videoId = .ok video)
    (hfile : newThumbnailPath req.file = none)
    (hchanged : ¬ (jsTrim (req.title.getD video.title) = video.title
        ∧ jsTrim (req.description.getD video.description) = video.description))
    (htitle : jsTrim (req.title.getD video.title) ≠ "")
    (hdescription : jsTrim (req.description.getD video.description) ≠ "") :
    (updateVideo cloud w req).1.trace
      = w.trace ++
          [.updateRecord video._id
            ⟨jsTrim (req.title.getD video.title),
             jsTrim (req.description.getD video.description), none⟩] := by
  have hguard : (jsTrim (req.title.getD video.title) == video.title
      && jsTrim (req.description.getD video.description) == video.description
      && (newThumbnailPath req.file).isNone) = false := by
    rw [hfile]
    simp only [Option.isNone_none, Bool.and_true, Bool.and_eq_false_iff, beq_eq_false_iff_ne]
    by_cases h : jsTrim (req.title.getD video.title) = video.title
    · exact Or.inr (fun h2 => hchanged ⟨h, h2⟩)
    · exact Or.inl h
  unfold updateVideo
  simp only [hvideo, hguard, Bool.false_eq_true, if_false]
  simp [updateThumbnail, hfile, ThumbnailValue.secure_url, htitle, hdescription]
  split <;> rfl

theorem updateVideo_without_file_patch_witness :
    (updateVideo sampleCloud sampleWorld ⟨some "v1", some "t2", none, none⟩).1.trace
      = sampleWorld.trace ++ [.updateRecord "v1" ⟨jsTrim "t2", jsTrim "d", none⟩] :=
  updateVideo_without_file_patch sampleCloud sampleWorld
    ⟨some "v1", some "t2", none, none⟩ ⟨"v1", "t", "d", "cdn/v1", "cdn/t1", 3, "u1"⟩
    rfl rfl (by decide) (by decide) (by decide)

end BackendMaster
